import Mathlib

/-!
Shallow embedding of the trial/session state machine of
`src/mouse_sequence_task.py` (class `TaskStateMachine`, together with the
configuration dataclass and the UI parameter-application logic), and theorems
settling the specification claims.  Wall-clock instants and durations are
modelled as rationals; every call to `time.perf_counter()` becomes an explicit
`now : ℚ` argument, and every call to `random.uniform(0, b)` becomes an
explicit `draw : ℚ` argument holding the value of the sample.  Key bindings
are modelled as natural-number key codes (the source uses one-character
strings).
-/

namespace MouseSequenceTask

/-- `RESULT_CORRECT` in the source. -/
def RESULT_CORRECT : ℕ := 0
/-- `RESULT_NO_PRESS` in the source. -/
def RESULT_NO_PRESS : ℕ := 1
/-- `RESULT_WRONG_BUTTON` in the source. -/
def RESULT_WRONG_BUTTON : ℕ := 2
/-- `RESULT_HOLD_TOO_LONG` in the source. -/
def RESULT_HOLD_TOO_LONG : ℕ := 3
/-- `RESULT_PREMATURE_PRESS` in the source. -/
def RESULT_PREMATURE_PRESS : ℕ := 4

/-- The `TaskState` enum of the source. -/
inductive TaskState where
  | ITI
  | L1_WAIT
  | I1
  | L2_WAIT
  | I2
  | L3_WAIT
  | REWARD
  | SHAPING_WAIT
  | PAUSED
  | FINISHED
deriving DecidableEq, Repr

/-- The operating mode, i.e. the strings "sequence3" / "shaping1" stored in
`config.mode`. -/
inductive Mode where
  | sequence3
  | shaping1
deriving DecidableEq, Repr

/-- The fields of the `Config` dataclass that the state machine reads or
writes.  Purely presentational fields (window geometry, subject id, session
label, rng seed) are omitted.  `max_trials` is an integer (`int(value)` from a
parameter box may make it negative). -/
structure Config where
  mode : Mode
  shaping_led : ℕ
  wait_L1 : ℚ
  wait_L2 : ℚ
  wait_L3 : ℚ
  I1 : ℚ
  I2 : ℚ
  R_duration : ℚ
  release_window : ℚ
  ITI_fixed_correct : ℚ
  ITI_rand_correct : ℚ
  ITI_fixed_error : ℚ
  ITI_rand_error : ℚ
  max_trials : ℤ
  key_B1 : ℕ
  key_B2 : ℕ
  key_B3 : ℕ
  adaptive_enabled : Bool
  adaptive_window : ℕ
  adaptive_threshold_high : ℚ
  adaptive_threshold_low : ℚ
  adaptive_step : ℚ
  min_wait : ℚ
  max_wait : ℚ
deriving DecidableEq, Repr

/-- The default values of the `Config` dataclass (keys j/k/l become key codes
0/1/2). -/
def defaultConfig : Config where
  mode := .sequence3
  shaping_led := 1
  wait_L1 := 3
  wait_L2 := 3
  wait_L3 := 3
  I1 := 1/2
  I2 := 1/2
  R_duration := 3/10
  release_window := 1
  ITI_fixed_correct := 1
  ITI_rand_correct := 1
  ITI_fixed_error := 2
  ITI_rand_error := 1
  max_trials := 500
  key_B1 := 0
  key_B2 := 1
  key_B3 := 2
  adaptive_enabled := false
  adaptive_window := 20
  adaptive_threshold_high := 17/20
  adaptive_threshold_low := 3/5
  adaptive_step := 1/10
  min_wait := 1
  max_wait := 5

/-- Entries of `trial_events`.  Timestamps are session-relative, i.e. values
of `get_current_time()`. -/
inductive Event where
  | state_enter (s : TaskState) (t : ℚ)
  | trial_start (t : ℚ)
  | led_on (led : ℕ) (t : ℚ)
  | led_off (led : ℕ) (t : ℚ)
  | reward_on (t : ℚ)
  | reward_off (t : ℚ)
  | trial_end (code : ℕ) (t : ℚ)
  | key_change (down : Bool) (key : ℕ) (t : ℚ)
  | iti_error (key : ℕ) (t : ℚ)
deriving DecidableEq, Repr

/-- The `self.stats` dictionary: one counter per result code 0..4. -/
structure Stats where
  correct : ℕ
  no_press : ℕ
  wrong_button : ℕ
  hold_too_long : ℕ
  premature : ℕ
deriving DecidableEq, Repr

/-- `self.stats = {code: 0 for code in ...}` -/
def Stats.zero : Stats := ⟨0, 0, 0, 0, 0⟩

/-- `self.stats[result_code] += 1`.  In the source the dictionary has exactly
the keys 0..4 and `end_trial` is only ever called with those literal codes;
for any other code the Python would raise, here the counters are unchanged
(the case is unreachable from the call sites embedded below). -/
def Stats.incr (s : Stats) (code : ℕ) : Stats :=
  match code with
  | 0 => { s with correct := s.correct + 1 }
  | 1 => { s with no_press := s.no_press + 1 }
  | 2 => { s with wrong_button := s.wrong_button + 1 }
  | 3 => { s with hold_too_long := s.hold_too_long + 1 }
  | 4 => { s with premature := s.premature + 1 }
  | _ => s

/-- Sum of the five per-outcome counters. -/
def Stats.sum (s : Stats) : ℕ :=
  s.correct + s.no_press + s.wrong_button + s.hold_too_long + s.premature

/-- An entry of `self.adaptive_adjustments`. -/
structure Adjustment where
  trial_index : ℕ
  accuracy : ℚ
  wait_L1 : ℚ
  wait_L2 : ℚ
  wait_L3 : ℚ
  timestamp : ℚ
deriving DecidableEq, Repr

/-- The mutable state of a `TaskStateMachine` object (plus the LED/reward
lines of the injected `IOBackend`, which the machine drives).  `pressed_keys`
is the `self.pressed_keys` set, modelled as a duplicate-free list;
`iti_key_counts` is the `self.iti_key_counts` dictionary, modelled as a total
function defaulting to 0. -/
structure Machine where
  config : Config
  state : TaskState
  state_start_time : ℚ
  session_start_time : ℚ
  trial_index : ℕ
  trial_start_time : ℚ
  trial_events : List Event
  trial_result_code : Option ℕ
  iti_error_recorded : Bool
  current_press_time : Option ℚ
  current_release_time : Option ℚ
  press_times : List ℚ
  release_times : List ℚ
  pressed_keys : List ℕ
  iti_duration : ℚ
  reward_start_time : ℚ
  trial_results : List ℕ
  stats : Stats
  iti_errors : ℕ
  iti_key_counts : ℕ → ℕ
  paused : Bool
  finished : Bool
  session_started : Bool
  adaptive_adjustments : List Adjustment
  led_states : ℕ → Bool
  reward_active : Bool

/-- `KeyboardScreenBackend.set_led`: only indices 1..3 are stored. -/
def setLed (f : ℕ → Bool) (i : ℕ) (b : Bool) : ℕ → Bool :=
  if 1 ≤ i ∧ i ≤ 3 then (fun x => if x = i then b else f x) else f

/-- The `for i in range(1, 4): set_led(i, False)` loops. -/
def allLedsOff (f : ℕ → Bool) : ℕ → Bool :=
  setLed (setLed (setLed f 1 false) 2 false) 3 false

/-- `TaskStateMachine.__init__` (state ITI, all counters zero, session not
started).  `session_start_time` is the construction instant. -/
def initMachine (c : Config) (now : ℚ) : Machine where
  config := c
  state := .ITI
  state_start_time := 0
  session_start_time := now
  trial_index := 0
  trial_start_time := 0
  trial_events := []
  trial_result_code := none
  iti_error_recorded := false
  current_press_time := none
  current_release_time := none
  press_times := []
  release_times := []
  pressed_keys := []
  iti_duration := 0
  reward_start_time := 0
  trial_results := []
  stats := Stats.zero
  iti_errors := 0
  iti_key_counts := fun _ => 0
  paused := false
  finished := false
  session_started := false
  adaptive_adjustments := []
  led_states := fun _ => false
  reward_active := false

/-- `TaskStateMachine._enter_iti`: all LEDs off, ITI-error latch cleared, and
the next ITI duration drawn (`fixed + uniform(0, rand)`, the sample being
`draw`), using the correct-outcome parameters exactly when the previous
trial's result code equals `RESULT_CORRECT`. -/
def enterIti (m : Machine) (draw : ℚ) : Machine :=
  { m with
    led_states := allLedsOff m.led_states
    iti_error_recorded := false
    iti_duration :=
      if m.trial_result_code = some RESULT_CORRECT then
        m.config.ITI_fixed_correct + draw
      else
        m.config.ITI_fixed_error + draw }

/-- The LED lit in a given wait state (`_enter_wait_state`'s if/elif chain);
0 stands for "no branch taken", which cannot happen at the call site. -/
def waitStateLed (c : Config) : TaskState → ℕ
  | .L1_WAIT => 1
  | .L2_WAIT => 2
  | .L3_WAIT => 3
  | .SHAPING_WAIT => c.shaping_led
  | _ => 0

/-- `TaskStateMachine._enter_wait_state`: turn on the stage LED, log it, and
reset the press/release tracking for the stage. -/
def enterWaitState (m : Machine) (s : TaskState) (now : ℚ) : Machine :=
  { m with
    led_states := setLed m.led_states (waitStateLed m.config s) true
    trial_events := m.trial_events ++
      [.led_on (waitStateLed m.config s) (now - m.session_start_time)]
    current_press_time := none
    current_release_time := none }

/-- `TaskStateMachine._enter_reward`: all LEDs off (each logged), reward line
on, reward onset logged. -/
def enterReward (m : Machine) (now : ℚ) : Machine :=
  { m with
    led_states := allLedsOff m.led_states
    trial_events := m.trial_events ++
      [.led_off 1 (now - m.session_start_time),
       .led_off 2 (now - m.session_start_time),
       .led_off 3 (now - m.session_start_time),
       .reward_on (now - m.session_start_time)]
    reward_active := true
    reward_start_time := now }

/-- `TaskStateMachine.enter_state`: record the new state and its entry
instant, log the entry, then run the state-specific entry logic. -/
def enterState (m : Machine) (s : TaskState) (now draw : ℚ) : Machine :=
  let m1 : Machine :=
    { m with
      state := s
      state_start_time := now
      trial_events := m.trial_events ++ [.state_enter s (now - m.session_start_time)] }
  match s with
  | .ITI => enterIti m1 draw
  | .L1_WAIT | .L2_WAIT | .L3_WAIT | .SHAPING_WAIT => enterWaitState m1 s now
  | .REWARD => enterReward m1 now
  | _ => m1

/-- `TaskStateMachine.end_trial`: record the outcome (result code, statistics
counter, outcome history, trial-end event; the hand-off to the trial logger is
an external effect) and re-enter the ITI. -/
def endTrial (m : Machine) (code : ℕ) (now draw : ℚ) : Machine :=
  enterState
    { m with
      trial_result_code := some code
      trial_results := m.trial_results ++ [code]
      stats := m.stats.incr code
      trial_events := m.trial_events ++ [.trial_end code (now - m.session_start_time)] }
    .ITI now draw

/-- `recent_results = self.trial_results[-window:]`: mirrors the Python slice
(for `window = 0` that slice is the whole list). -/
def recentResults (m : Machine) : List ℕ :=
  if m.config.adaptive_window = 0 then m.trial_results
  else m.trial_results.drop (m.trial_results.length - m.config.adaptive_window)

/-- `accuracy = correct_count / len(recent_results)` over the recent slice. -/
def recentAccuracy (m : Machine) : ℚ :=
  ((recentResults m).count RESULT_CORRECT : ℚ) / ((recentResults m).length : ℚ)

/-- The high-accuracy branch of `_apply_adaptive_adjustments`: every per-step
wait is decremented by one step size, floored at `min_wait`. -/
def adaptLowerWaits (c : Config) : Config :=
  { c with
    wait_L1 := max c.min_wait (c.wait_L1 - c.adaptive_step)
    wait_L2 := max c.min_wait (c.wait_L2 - c.adaptive_step)
    wait_L3 := max c.min_wait (c.wait_L3 - c.adaptive_step) }

/-- The low-accuracy branch of `_apply_adaptive_adjustments`: every per-step
wait is incremented by one step size, capped at `max_wait`. -/
def adaptRaiseWaits (c : Config) : Config :=
  { c with
    wait_L1 := min c.max_wait (c.wait_L1 + c.adaptive_step)
    wait_L2 := min c.max_wait (c.wait_L2 + c.adaptive_step)
    wait_L3 := min c.max_wait (c.wait_L3 + c.adaptive_step) }

/-- `TaskStateMachine._apply_adaptive_adjustments`: nothing happens until at
least `adaptive_window` completed trials exist; otherwise the per-step waits
move by one (clamped) step when the recent accuracy reaches a threshold, and
an adjustment event is appended exactly when some wait actually changed
(`adjustment_made` in the source). -/
def applyAdaptiveAdjustments (m : Machine) (now : ℚ) : Machine :=
  if m.trial_results.length < m.config.adaptive_window then m
  else if recentAccuracy m ≥ m.config.adaptive_threshold_high then
    let c' := adaptLowerWaits m.config
    let m2 : Machine := { m with config := c' }
    if c'.wait_L1 = m.config.wait_L1 ∧ c'.wait_L2 = m.config.wait_L2 ∧
        c'.wait_L3 = m.config.wait_L3 then m2
    else
      { m2 with adaptive_adjustments := m2.adaptive_adjustments ++
          [⟨m.trial_index, recentAccuracy m, c'.wait_L1, c'.wait_L2, c'.wait_L3,
            now - m.session_start_time⟩] }
  else if recentAccuracy m ≤ m.config.adaptive_threshold_low then
    let c' := adaptRaiseWaits m.config
    let m2 : Machine := { m with config := c' }
    if c'.wait_L1 = m.config.wait_L1 ∧ c'.wait_L2 = m.config.wait_L2 ∧
        c'.wait_L3 = m.config.wait_L3 then m2
    else
      { m2 with adaptive_adjustments := m2.adaptive_adjustments ++
          [⟨m.trial_index, recentAccuracy m, c'.wait_L1, c'.wait_L2, c'.wait_L3,
            now - m.session_start_time⟩] }
  else m

/-- `TaskStateMachine.start_new_trial`: no-op unless the session has started;
otherwise bump the trial counter, clear the per-trial buffers, apply adaptive
adjustments when enabled, and enter the mode-appropriate first wait state. -/
def startNewTrial (m : Machine) (now draw : ℚ) : Machine :=
  if m.session_started then
    let m1 : Machine :=
      { m with
        trial_index := m.trial_index + 1
        trial_start_time := now
        trial_events := [Event.trial_start (now - m.session_start_time)]
        trial_result_code := none
        press_times := []
        release_times := []
        pressed_keys := [] }
    let m2 := if m1.config.adaptive_enabled then applyAdaptiveAdjustments m1 now else m1
    if m2.config.mode = Mode.shaping1 then enterState m2 .SHAPING_WAIT now draw
    else enterState m2 .L1_WAIT now draw
  else m

/-- `TaskStateMachine.start_session`: only effective when the session has not
started; sets the session start epoch and begins trial 1. -/
def startSession (m : Machine) (now draw : ℚ) : Machine :=
  if m.session_started then m
  else startNewTrial { m with session_started := true, session_start_time := now } now draw

/-- `TaskStateMachine.reset_session`: zero the trial counter, outcome history,
statistics and adaptive history, rebase the session epoch, clear the
pause/finished/started flags and re-enter the ITI.  (The ITI-error counters
`iti_errors` / `iti_key_counts` are not touched by the source.) -/
def resetSession (m : Machine) (now draw : ℚ) : Machine :=
  enterState
    { m with
      trial_index := 0
      trial_results := []
      stats := Stats.zero
      adaptive_adjustments := []
      session_start_time := now
      finished := false
      paused := false
      session_started := false }
    .ITI now draw

/-- `TaskStateMachine.toggle_pause`: flips the pause flag, only once the
session has started. -/
def togglePause (m : Machine) : Machine :=
  if m.session_started then { m with paused := !m.paused } else m

/-- `TaskStateMachine.toggle_mode`: swap the mode; reset the session when one
is running. -/
def toggleMode (m : Machine) (now draw : ℚ) : Machine :=
  let m1 : Machine :=
    { m with config := { m.config with
        mode := if m.config.mode = Mode.sequence3 then Mode.shaping1 else Mode.sequence3 } }
  if m1.session_started then resetSession m1 now draw else m1

/-- `TaskStateMachine.adjust_current_wait_time`: the wait bound to the active
stage (or the shaping target) is moved by `delta` and clamped into
`[0.1, 10.0]`. -/
def adjustCurrentWaitTime (m : Machine) (delta : ℚ) : Machine :=
  match m.state with
  | .L1_WAIT =>
      { m with config := { m.config with wait_L1 := max (1/10) (min 10 (m.config.wait_L1 + delta)) } }
  | .L2_WAIT =>
      { m with config := { m.config with wait_L2 := max (1/10) (min 10 (m.config.wait_L2 + delta)) } }
  | .L3_WAIT =>
      { m with config := { m.config with wait_L3 := max (1/10) (min 10 (m.config.wait_L3 + delta)) } }
  | .SHAPING_WAIT =>
      if m.config.shaping_led = 1 then
        { m with config := { m.config with wait_L1 := max (1/10) (min 10 (m.config.wait_L1 + delta)) } }
      else if m.config.shaping_led = 2 then
        { m with config := { m.config with wait_L2 := max (1/10) (min 10 (m.config.wait_L2 + delta)) } }
      else
        { m with config := { m.config with wait_L3 := max (1/10) (min 10 (m.config.wait_L3 + delta)) } }
  | _ => m

/-- The '-' hotkey: `release_window = max(0.1, release_window - 0.1)`. -/
def releaseWindowDecr (c : Config) : Config :=
  { c with release_window := max (1/10) (c.release_window - 1/10) }

/-- The '=' hotkey: `release_window = min(5.0, release_window + 0.1)`. -/
def releaseWindowIncr (c : Config) : Config :=
  { c with release_window := min 5 (c.release_window + 1/10) }

/-- `task_keys = [key_B1, key_B2, key_B3]`. -/
def taskKeys (c : Config) : List ℕ := [c.key_B1, c.key_B2, c.key_B3]

/-- `task_keys.index(key) + 1` for a key in `task_keys` (first match wins). -/
def buttonIndex (c : Config) (key : ℕ) : ℕ :=
  if key = c.key_B1 then 1
  else if key = c.key_B2 then 2
  else if key = c.key_B3 then 3
  else 0

/-- The `expected_button` if/elif chain of `_handle_keydown` / `_handle_keyup`. -/
def expectedButton (m : Machine) : Option ℕ :=
  match m.state with
  | .L1_WAIT => some 1
  | .L2_WAIT => some 2
  | .L3_WAIT => some 3
  | .SHAPING_WAIT => some m.config.shaping_led
  | _ => none

/-- `TaskStateMachine._get_current_wait_duration`. -/
def currentWaitDuration (m : Machine) : ℚ :=
  match m.state with
  | .L1_WAIT => m.config.wait_L1
  | .L2_WAIT => m.config.wait_L2
  | .L3_WAIT => m.config.wait_L3
  | .SHAPING_WAIT =>
      if m.config.shaping_led = 1 then m.config.wait_L1
      else if m.config.shaping_led = 2 then m.config.wait_L2
      else m.config.wait_L3
  | _ => 0

/-- `TaskStateMachine._get_current_led_index`. -/
def currentLedIndex (m : Machine) : Option ℕ :=
  match m.state with
  | .L1_WAIT => some 1
  | .L2_WAIT => some 2
  | .L3_WAIT => some 3
  | .SHAPING_WAIT => some m.config.shaping_led
  | _ => none

/-- `TaskStateMachine._advance_to_next_stage`: turn off the stage LED (logged)
and enter the next interval, or the reward state for the last / shaping
stage. -/
def advanceToNextStage (m : Machine) (now draw : ℚ) : Machine :=
  match m.state with
  | .L1_WAIT =>
      enterState
        { m with led_states := setLed m.led_states 1 false
                 trial_events := m.trial_events ++ [.led_off 1 (now - m.session_start_time)] }
        .I1 now draw
  | .L2_WAIT =>
      enterState
        { m with led_states := setLed m.led_states 2 false
                 trial_events := m.trial_events ++ [.led_off 2 (now - m.session_start_time)] }
        .I2 now draw
  | .L3_WAIT =>
      enterState
        { m with led_states := setLed m.led_states 3 false
                 trial_events := m.trial_events ++ [.led_off 3 (now - m.session_start_time)] }
        .REWARD now draw
  | .SHAPING_WAIT =>
      enterState
        { m with led_states := setLed m.led_states m.config.shaping_led false
                 trial_events := m.trial_events ++
                   [.led_off m.config.shaping_led (now - m.session_start_time)] }
        .REWARD now draw
  | _ => m

/-- `TaskStateMachine._handle_keydown`.  `timestamp` is the event's captured
timestamp; `now` is the processing instant (used by `get_current_time`). -/
def handleKeydown (m : Machine) (key : ℕ) (timestamp now draw : ℚ) : Machine :=
  if key ∈ taskKeys m.config then
    let m1 : Machine := { m with pressed_keys := m.pressed_keys.insert key }
    if m1.state = .ITI ∨ m1.state = .I1 ∨ m1.state = .I2 ∨ m1.state = .REWARD then
      if m1.state = .ITI then
        let m2 : Machine :=
          if m1.iti_error_recorded then m1
          else
            { m1 with
              iti_error_recorded := true
              iti_errors := m1.iti_errors + 1
              trial_events := m1.trial_events ++ [.iti_error key (now - m1.session_start_time)] }
        { m2 with iti_key_counts :=
            fun x => if x = key then m2.iti_key_counts x + 1 else m2.iti_key_counts x }
      else endTrial m1 RESULT_PREMATURE_PRESS now draw
    else
      match expectedButton m1 with
      | none => m1
      | some e =>
        if buttonIndex m1.config key ≠ e then endTrial m1 RESULT_WRONG_BUTTON now draw
        else if m1.current_press_time = none then
          { m1 with
            current_press_time := some timestamp
            press_times := m1.press_times ++ [now - m1.session_start_time] }
        else m1
  else m

/-- `TaskStateMachine._handle_keyup`. -/
def handleKeyup (m : Machine) (key : ℕ) (timestamp now draw : ℚ) : Machine :=
  if key ∈ taskKeys m.config then
    let m1 : Machine := { m with pressed_keys := m.pressed_keys.erase key }
    match m1.current_press_time with
    | none => m1
    | some _ =>
      match expectedButton m1 with
      | none => m1
      | some e =>
        if buttonIndex m1.config key = e then
          let m2 : Machine :=
            { m1 with
              current_release_time := some timestamp
              release_times := m1.release_times ++ [now - m1.session_start_time] }
          if timestamp ≤ m2.state_start_time + currentWaitDuration m2 + m2.config.release_window then
            advanceToNextStage m2 now draw
          else endTrial m2 RESULT_HOLD_TOO_LONG now draw
        else m1
  else m

/-- Key codes for the control keys handled inside `process_key_event`. -/
def keySpace : ℕ := 100
def keyR : ℕ := 101
def keyTab : ℕ := 102
def keyLbracket : ℕ := 103
def keyRbracket : ℕ := 104
def keyMinus : ℕ := 105
def keyEquals : ℕ := 106

/-- `TaskStateMachine.process_key_event` (`down = true` for a keydown):
control keys act regardless of session state; task keys are ignored unless
the session is running and unpaused, in which case the raw event is logged
and dispatched to the keydown/keyup handler. -/
def processKeyEvent (m : Machine) (down : Bool) (key : ℕ) (timestamp now draw : ℚ) : Machine :=
  if down = true ∧ key = keySpace then
    if m.session_started = false then startSession m now draw else togglePause m
  else if down = true ∧ key = keyR then resetSession m now draw
  else if down = true ∧ key = keyTab then toggleMode m now draw
  else if down = true ∧ key = keyLbracket then adjustCurrentWaitTime m (-(1/10))
  else if down = true ∧ key = keyRbracket then adjustCurrentWaitTime m (1/10)
  else if down = true ∧ key = keyMinus then { m with config := releaseWindowDecr m.config }
  else if down = true ∧ key = keyEquals then { m with config := releaseWindowIncr m.config }
  else if m.session_started = false ∨ m.paused then m
  else
    let m1 : Machine :=
      { m with trial_events := m.trial_events ++ [.key_change down key (now - m.session_start_time)] }
    if down then handleKeydown m1 key timestamp now draw
    else handleKeyup m1 key timestamp now draw

/-- The LED shutdown performed by `update` when a held press exceeds the
release window: the active LED (when its index is truthy) is forced off and
logged. -/
def holdFailLedOff (m : Machine) (now : ℚ) : Machine :=
  match currentLedIndex m with
  | some led =>
    if led ≠ 0 then
      { m with
        led_states := setLed m.led_states led false
        trial_events := m.trial_events ++ [.led_off led (now - m.session_start_time)] }
    else m
  | none => m

/-- `any(key in self.pressed_keys for key in task_keys)`. -/
def anyTaskKeyPressed (m : Machine) : Bool :=
  (taskKeys m.config).any (fun k => m.pressed_keys.contains k)

/-- `TaskStateMachine.update`, the per-tick timeout logic.  `now` is the tick
instant. -/
def update (m : Machine) (now draw : ℚ) : Machine :=
  if m.paused ∨ m.finished ∨ m.session_started = false then m
  else
    match m.state with
    | .ITI =>
      if now - m.state_start_time ≥ m.iti_duration then
        if anyTaskKeyPressed m then m
        else if (m.trial_index : ℤ) ≥ m.config.max_trials then
          enterState { m with finished := true } .FINISHED now draw
        else startNewTrial m now draw
      else m
    | .L1_WAIT | .L2_WAIT | .L3_WAIT | .SHAPING_WAIT =>
      match m.current_press_time with
      | some p =>
        if now - p ≥ m.config.release_window then
          endTrial (holdFailLedOff m now) RESULT_HOLD_TOO_LONG now draw
        else m
      | none =>
        if now - m.state_start_time ≥ currentWaitDuration m then
          endTrial m RESULT_NO_PRESS now draw
        else m
    | .I1 =>
      if now - m.state_start_time ≥ m.config.I1 then enterState m .L2_WAIT now draw else m
    | .I2 =>
      if now - m.state_start_time ≥ m.config.I2 then enterState m .L3_WAIT now draw else m
    | .REWARD =>
      if now - m.state_start_time ≥ m.config.R_duration then
        endTrial
          { m with reward_active := false
                   trial_events := m.trial_events ++ [.reward_off (now - m.session_start_time)] }
          RESULT_CORRECT now draw
      else m
    | _ => m

/-- Truncation toward zero, i.e. Python's `int()` applied to a float. -/
def ratTrunc (q : ℚ) : ℤ := if 0 ≤ q then ⌊q⌋ else ⌈q⌉

/-- The parameter input boxes of the UI: `none` models an empty box (the
parameter is left alone).  A filled box holds the already-parsed numeric
value. -/
structure ParamBoxes where
  wait_L1 : Option ℚ := none
  wait_L2 : Option ℚ := none
  wait_L3 : Option ℚ := none
  I1 : Option ℚ := none
  I2 : Option ℚ := none
  release_window : Option ℚ := none
  R_duration : Option ℚ := none
  ITI_fixed_correct : Option ℚ := none
  ITI_rand_correct : Option ℚ := none
  ITI_fixed_error : Option ℚ := none
  ITI_rand_error : Option ℚ := none
  max_trials : Option ℚ := none
deriving DecidableEq, Repr

/-- `UI.apply_parameter_changes`: every filled box is written verbatim into
the configuration (`max_trials` via `int(value)`); no clamping is applied. -/
def applyParameterChanges (c : Config) (b : ParamBoxes) : Config :=
  { c with
    wait_L1 := b.wait_L1.getD c.wait_L1
    wait_L2 := b.wait_L2.getD c.wait_L2
    wait_L3 := b.wait_L3.getD c.wait_L3
    I1 := b.I1.getD c.I1
    I2 := b.I2.getD c.I2
    release_window := b.release_window.getD c.release_window
    R_duration := b.R_duration.getD c.R_duration
    ITI_fixed_correct := b.ITI_fixed_correct.getD c.ITI_fixed_correct
    ITI_rand_correct := b.ITI_rand_correct.getD c.ITI_rand_correct
    ITI_fixed_error := b.ITI_fixed_error.getD c.ITI_fixed_error
    ITI_rand_error := b.ITI_rand_error.getD c.ITI_rand_error
    max_trials := (b.max_trials.map ratTrunc).getD c.max_trials }

/-- States reachable from a freshly constructed machine through the program's
entry points: key events (`process_key_event`, which also covers the
start/reset/mode/pause/adjust hotkeys), update ticks, and configuration edits
(the last constructor over-approximates `UI.apply_parameter_changes` and the
save/load buttons, all of which mutate only `config` fields). -/
inductive Reachable : Machine → Prop where
  | init (c : Config) (now : ℚ) : Reachable (initMachine c now)
  | key (m : Machine) (down : Bool) (key : ℕ) (timestamp now draw : ℚ) :
      Reachable m → Reachable (processKeyEvent m down key timestamp now draw)
  | tick (m : Machine) (now draw : ℚ) :
      Reachable m → Reachable (update m now draw)
  | setConfig (m : Machine) (c : Config) :
      Reachable m → Reachable { m with config := c }

/-- The stage entered by `_advance_to_next_stage` from each wait state. -/
def nextStage : TaskState → TaskState
  | .L1_WAIT => .I1
  | .L2_WAIT => .I2
  | .L3_WAIT => .REWARD
  | .SHAPING_WAIT => .REWARD
  | s => s

/-- 1 when a trial is in progress in the given state (between
`start_new_trial` and `end_trial`), 0 otherwise. -/
def inProgressState : TaskState → ℕ
  | .L1_WAIT => 1
  | .I1 => 1
  | .L2_WAIT => 1
  | .I2 => 1
  | .L3_WAIT => 1
  | .REWARD => 1
  | .SHAPING_WAIT => 1
  | _ => 0

/-- Session-accounting invariant: the five statistics counters sum to the
number of recorded outcomes, which is the trial counter minus the trial in
progress; and an unstarted session sits in the ITI. -/
def Inv (m : Machine) : Prop :=
  Stats.sum m.stats = m.trial_results.length ∧
  m.trial_results.length + inProgressState m.state = m.trial_index ∧
  (m.session_started = false → m.state = TaskState.ITI)

/-- A machine with a nonzero premature-press tally (input for the reset
counterexample). -/
def mC3 : Machine :=
  { initMachine defaultConfig 0 with
    iti_errors := 1
    iti_key_counts := fun x => if x = 0 then 1 else 0 }

/-- Parameter boxes with a negative wait entered (input for the clamping
counterexample). -/
def negBoxes : ParamBoxes := { wait_L1 := some (-3) }

/-- A running machine in `L1_WAIT` holding a press recorded at `t = 1`. -/
def mWaitPress : Machine :=
  { initMachine defaultConfig 0 with
    state := .L1_WAIT
    session_started := true
    current_press_time := some 1 }

/-- A running machine sitting in the ITI (duration 1) with key 0 held. -/
def mItiHeld : Machine :=
  { initMachine defaultConfig 0 with
    session_started := true
    iti_duration := 1
    pressed_keys := [0] }

/-- A running, paused machine sitting in the ITI (duration 1), no key held. -/
def mPausedIti : Machine :=
  { initMachine defaultConfig 0 with
    session_started := true
    paused := true
    iti_duration := 1 }

/-- A configuration with a small adaptive window, adaptation enabled. -/
def cfgAdaptive : Config :=
  { defaultConfig with adaptive_window := 2, adaptive_enabled := true }

/-- A machine with two correct outcomes recorded (recent accuracy 1). -/
def mAdaptive : Machine :=
  { initMachine cfgAdaptive 0 with trial_results := [0, 0] }

section FrameLemmas

variable (m : Machine) (s : TaskState) (now draw : ℚ) (code : ℕ)

lemma enterState_state : (enterState m s now draw).state = s := by
  cases s <;> rfl

lemma enterState_stats : (enterState m s now draw).stats = m.stats := by
  cases s <;> rfl

lemma enterState_trial_results :
    (enterState m s now draw).trial_results = m.trial_results := by
  cases s <;> rfl

lemma enterState_trial_index :
    (enterState m s now draw).trial_index = m.trial_index := by
  cases s <;> rfl

lemma enterState_session_started :
    (enterState m s now draw).session_started = m.session_started := by
  cases s <;> rfl

lemma enterState_paused : (enterState m s now draw).paused = m.paused := by
  cases s <;> rfl

lemma enterState_finished : (enterState m s now draw).finished = m.finished := by
  cases s <;> rfl

lemma enterState_trial_result_code :
    (enterState m s now draw).trial_result_code = m.trial_result_code := by
  cases s <;> rfl

lemma enterState_iti_errors :
    (enterState m s now draw).iti_errors = m.iti_errors := by
  cases s <;> rfl

lemma enterState_iti_key_counts :
    (enterState m s now draw).iti_key_counts = m.iti_key_counts := by
  cases s <;> rfl

lemma enterState_config : (enterState m s now draw).config = m.config := by
  cases s <;> rfl

lemma enterState_state_start_time :
    (enterState m s now draw).state_start_time = now := by
  cases s <;> rfl

lemma endTrial_state : (endTrial m code now draw).state = .ITI := rfl

lemma endTrial_trial_result_code :
    (endTrial m code now draw).trial_result_code = some code := rfl

lemma endTrial_trial_results :
    (endTrial m code now draw).trial_results = m.trial_results ++ [code] := rfl

lemma endTrial_stats : (endTrial m code now draw).stats = m.stats.incr code := rfl

lemma endTrial_trial_index :
    (endTrial m code now draw).trial_index = m.trial_index := rfl

lemma endTrial_session_started :
    (endTrial m code now draw).session_started = m.session_started := rfl

lemma endTrial_current_press_time :
    (endTrial m code now draw).current_press_time = m.current_press_time := rfl

lemma endTrial_iti_errors :
    (endTrial m code now draw).iti_errors = m.iti_errors := rfl

lemma endTrial_config : (endTrial m code now draw).config = m.config := rfl

lemma endTrial_led_states :
    (endTrial m code now draw).led_states = allLedsOff m.led_states := rfl

lemma allLedsOff_one (f : ℕ → Bool) : allLedsOff f 1 = false := by
  simp [allLedsOff, setLed]

lemma allLedsOff_two (f : ℕ → Bool) : allLedsOff f 2 = false := by
  simp [allLedsOff, setLed]

lemma allLedsOff_three (f : ℕ → Bool) : allLedsOff f 3 = false := by
  simp [allLedsOff, setLed]

lemma holdFailLedOff_stats : (holdFailLedOff m now).stats = m.stats := by
  unfold holdFailLedOff
  rcases currentLedIndex m with _ | led <;> dsimp only <;> split_ifs <;> rfl

lemma holdFailLedOff_trial_results :
    (holdFailLedOff m now).trial_results = m.trial_results := by
  unfold holdFailLedOff
  rcases currentLedIndex m with _ | led <;> dsimp only <;> split_ifs <;> rfl

lemma holdFailLedOff_trial_index :
    (holdFailLedOff m now).trial_index = m.trial_index := by
  unfold holdFailLedOff
  rcases currentLedIndex m with _ | led <;> dsimp only <;> split_ifs <;> rfl

lemma holdFailLedOff_state : (holdFailLedOff m now).state = m.state := by
  unfold holdFailLedOff
  rcases currentLedIndex m with _ | led <;> dsimp only <;> split_ifs <;> rfl

lemma holdFailLedOff_session_started :
    (holdFailLedOff m now).session_started = m.session_started := by
  unfold holdFailLedOff
  rcases currentLedIndex m with _ | led <;> dsimp only <;> split_ifs <;> rfl

lemma Stats.sum_incr (st : Stats) (hc : code < 5) :
    (st.incr code).sum = st.sum + 1 := by
  interval_cases code <;> simp [Stats.incr, Stats.sum] <;> omega

lemma applyAdaptive_stats :
    (applyAdaptiveAdjustments m now).stats = m.stats := by
  unfold applyAdaptiveAdjustments
  dsimp only
  split_ifs <;> rfl

lemma applyAdaptive_trial_results :
    (applyAdaptiveAdjustments m now).trial_results = m.trial_results := by
  unfold applyAdaptiveAdjustments
  dsimp only
  split_ifs <;> rfl

lemma applyAdaptive_trial_index :
    (applyAdaptiveAdjustments m now).trial_index = m.trial_index := by
  unfold applyAdaptiveAdjustments
  dsimp only
  split_ifs <;> rfl

lemma applyAdaptive_state :
    (applyAdaptiveAdjustments m now).state = m.state := by
  unfold applyAdaptiveAdjustments
  dsimp only
  split_ifs <;> rfl

lemma applyAdaptive_session_started :
    (applyAdaptiveAdjustments m now).session_started = m.session_started := by
  unfold applyAdaptiveAdjustments
  dsimp only
  split_ifs <;> rfl

lemma applyAdaptive_config_mode :
    (applyAdaptiveAdjustments m now).config.mode = m.config.mode := by
  unfold applyAdaptiveAdjustments
  dsimp only
  split_ifs <;> rfl

lemma startNewTrial_session_started :
    (startNewTrial m now draw).session_started = m.session_started := by
  unfold startNewTrial
  dsimp only
  split_ifs <;>
    simp [enterState_session_started, applyAdaptive_session_started]

lemma startNewTrial_trial_index (hst : m.session_started = true) :
    (startNewTrial m now draw).trial_index = m.trial_index + 1 := by
  unfold startNewTrial
  rw [hst]
  dsimp only
  split_ifs <;>
    simp_all [enterState_trial_index, applyAdaptive_trial_index]

lemma startNewTrial_stats (hst : m.session_started = true) :
    (startNewTrial m now draw).stats = m.stats := by
  unfold startNewTrial
  rw [hst]
  dsimp only
  split_ifs <;> simp_all [enterState_stats, applyAdaptive_stats]

lemma startNewTrial_trial_results (hst : m.session_started = true) :
    (startNewTrial m now draw).trial_results = m.trial_results := by
  unfold startNewTrial
  rw [hst]
  dsimp only
  split_ifs <;> simp_all [enterState_trial_results, applyAdaptive_trial_results]

lemma startNewTrial_inProgress (hst : m.session_started = true) :
    inProgressState (startNewTrial m now draw).state = 1 := by
  unfold startNewTrial
  rw [hst]
  dsimp only
  split_ifs <;> simp_all [enterState_state, inProgressState]

lemma expectedButton_of_ITI (h : m.state = .ITI) : expectedButton m = none := by
  unfold expectedButton
  rw [h]

lemma handleKeyup_no_press (key : ℕ) (ts : ℚ) (h : m.current_press_time = none) :
    handleKeyup m key ts now draw =
      if key ∈ taskKeys m.config then
        { m with pressed_keys := m.pressed_keys.erase key }
      else m := by
  unfold handleKeyup
  split_ifs with hkey
  · dsimp only
    rw [h]
  · rfl

lemma update_of_paused (hp : m.paused = true) : update m now draw = m := by
  unfold update
  rw [hp]
  simp

lemma update_iti_starts_trial (hp : m.paused = false) (hfin : m.finished = false)
    (hst : m.session_started = true) (hstate : m.state = TaskState.ITI)
    (hel : m.iti_duration ≤ now - m.state_start_time)
    (hkeys : anyTaskKeyPressed m = false)
    (hcap : (m.trial_index : ℤ) < m.config.max_trials) :
    (update m now draw).trial_index = m.trial_index + 1 := by
  unfold update
  rw [hp, hfin, hst, hstate, hkeys]
  simp only [Bool.false_eq_true, Bool.true_eq_false, or_self, or_false, false_or,
    if_false, ite_false]
  rw [if_pos hel, if_neg (not_le.mpr hcap)]
  exact startNewTrial_trial_index m now draw hst

lemma update_iti_held (hstate : m.state = TaskState.ITI)
    (hkeys : anyTaskKeyPressed m = true) : update m now draw = m := by
  unfold update
  rw [hstate, hkeys]
  dsimp only
  split_ifs <;> simp_all

lemma handleKeydown_iti_eq_of_rec (k : ℕ) (ts : ℚ)
    (hstate : m.state = TaskState.ITI) (hkey : k ∈ taskKeys m.config)
    (hrec : m.iti_error_recorded = true) :
    handleKeydown m k ts now draw =
      { m with
        pressed_keys := m.pressed_keys.insert k
        iti_key_counts :=
          fun x => if x = k then m.iti_key_counts x + 1 else m.iti_key_counts x } := by
  unfold handleKeydown
  rw [if_pos hkey]
  dsimp only
  rw [hstate, hrec]
  simp

lemma handleKeydown_iti_eq_of_not_rec (k : ℕ) (ts : ℚ)
    (hstate : m.state = TaskState.ITI) (hkey : k ∈ taskKeys m.config)
    (hrec : m.iti_error_recorded = false) :
    handleKeydown m k ts now draw =
      { m with
        pressed_keys := m.pressed_keys.insert k
        iti_error_recorded := true
        iti_errors := m.iti_errors + 1
        trial_events := m.trial_events ++ [.iti_error k (now - m.session_start_time)]
        iti_key_counts :=
          fun x => if x = k then m.iti_key_counts x + 1 else m.iti_key_counts x } := by
  unfold handleKeydown
  rw [if_pos hkey]
  dsimp only
  rw [hstate, hrec]
  simp

lemma handleKeyup_in_iti (k : ℕ) (ts : ℚ) (hITI : m.state = TaskState.ITI) :
    (handleKeyup m k ts now draw).trial_result_code = m.trial_result_code ∧
    (handleKeyup m k ts now draw).state = m.state := by
  unfold handleKeyup
  split_ifs with hkey
  · dsimp only
    rw [show expectedButton { m with pressed_keys := m.pressed_keys.erase k } = none from by
      unfold expectedButton
      dsimp only
      rw [hITI]]
    dsimp only
    cases hcp : m.current_press_time
    · exact ⟨rfl, rfl⟩
    · exact ⟨rfl, rfl⟩
  · exact ⟨rfl, rfl⟩

lemma update_wait_hold_ex (p : ℚ)
    (hpause : m.paused = false) (hfin : m.finished = false)
    (hst : m.session_started = true)
    (hwait : m.state = TaskState.L1_WAIT ∨ m.state = TaskState.L2_WAIT ∨
      m.state = TaskState.L3_WAIT ∨ m.state = TaskState.SHAPING_WAIT)
    (hp : m.current_press_time = some p)
    (hhold : m.config.release_window ≤ now - p) :
    ∃ m1 : Machine, update m now draw = endTrial m1 RESULT_HOLD_TOO_LONG now draw ∧
      m1.trial_results = m.trial_results ∧ m1.stats = m.stats := by
  unfold update
  rw [hpause, hfin, hst]
  rw [if_neg (by simp)]
  rcases hwait with h | h | h | h <;>
    (rw [h]
     dsimp only
     rw [hp]
     dsimp only
     rw [if_pos hhold]
     exact ⟨_, rfl, holdFailLedOff_trial_results m now, holdFailLedOff_stats m now⟩)

lemma handleKeyup_matched (k : ℕ) (ts : ℚ) (p : ℚ) (e : ℕ)
    (hkey : k ∈ taskKeys m.config) (hp : m.current_press_time = some p)
    (he : expectedButton m = some e) (hb : buttonIndex m.config k = e) :
    handleKeyup m k ts now draw =
      (if ts ≤ m.state_start_time + currentWaitDuration m + m.config.release_window then
        advanceToNextStage
          { m with
            pressed_keys := m.pressed_keys.erase k
            current_release_time := some ts
            release_times := m.release_times ++ [now - m.session_start_time] }
          now draw
      else
        endTrial
          { m with
            pressed_keys := m.pressed_keys.erase k
            current_release_time := some ts
            release_times := m.release_times ++ [now - m.session_start_time] }
          RESULT_HOLD_TOO_LONG now draw) := by
  unfold handleKeyup
  rw [if_pos hkey]
  dsimp only
  rw [show expectedButton { m with pressed_keys := m.pressed_keys.erase k } = some e from he]
  dsimp only
  rw [hp]
  dsimp only
  rw [if_pos (show buttonIndex m.config k = e from hb)]
  rfl

lemma inv_of_frame (m2 : Machine) (h : Inv m) (hstats : m2.stats = m.stats)
    (hres : m2.trial_results = m.trial_results)
    (hidx : m2.trial_index = m.trial_index) (hstate : m2.state = m.state)
    (hss : m2.session_started = m.session_started) : Inv m2 := by
  obtain ⟨h1, h2, h3⟩ := h
  refine ⟨?_, ?_, ?_⟩
  · rw [hstats, hres]
    exact h1
  · rw [hres, hstate, hidx]
    exact h2
  · intro hns
    rw [hstate]
    exact h3 (by rw [← hss]; exact hns)

lemma inv_endTrial (h : Inv m) (hip : inProgressState m.state = 1)
    (hc : code < 5) : Inv (endTrial m code now draw) := by
  obtain ⟨h1, h2, h3⟩ := h
  refine ⟨?_, ?_, fun _ => endTrial_state m now draw code⟩
  · rw [endTrial_stats m now draw code, endTrial_trial_results m now draw code,
      Stats.sum_incr code m.stats hc, List.length_append, h1]
    rfl
  · rw [endTrial_trial_results m now draw code, endTrial_state m now draw code,
      endTrial_trial_index m now draw code]
    rw [hip] at h2
    simp [List.length_append, inProgressState]
    omega

lemma inv_startNewTrial (h : Inv m) (hip : inProgressState m.state = 0) :
    Inv (startNewTrial m now draw) := by
  by_cases hst : m.session_started = true
  · obtain ⟨h1, h2, h3⟩ := h
    refine ⟨?_, ?_, ?_⟩
    · rw [startNewTrial_stats m now draw hst, startNewTrial_trial_results m now draw hst]
      exact h1
    · rw [startNewTrial_trial_results m now draw hst,
        startNewTrial_inProgress m now draw hst, startNewTrial_trial_index m now draw hst]
      rw [hip] at h2
      omega
    · intro hns
      rw [startNewTrial_session_started, hst] at hns
      simp at hns
  · have hstF : m.session_started = false := by
      cases hsb : m.session_started
      · rfl
      · exact absurd hsb hst
    rw [show startNewTrial m now draw = m from by
      unfold startNewTrial
      rw [if_neg (by simp [hstF])]]
    exact h

lemma inv_resetSession : Inv (resetSession m now draw) :=
  ⟨rfl, rfl, fun _ => rfl⟩

lemma inv_startSession (h : Inv m) : Inv (startSession m now draw) := by
  unfold startSession
  split_ifs with hst
  · exact h
  · have hstF : m.session_started = false := by
      cases hsb : m.session_started
      · rfl
      · exact absurd hsb hst
    have hiti := h.2.2 hstF
    refine inv_startNewTrial _ now draw ⟨h.1, h.2.1, fun hns => absurd hns (by simp)⟩ ?_
    dsimp only
    rw [hiti]
    rfl

lemma inProgress_of_expectedButton (e : ℕ) (hexp : expectedButton m = some e) :
    inProgressState m.state = 1 := by
  rcases hsv : m.state
  case ITI => simp [expectedButton, hsv] at hexp
  case L1_WAIT => rfl
  case I1 => simp [expectedButton, hsv] at hexp
  case L2_WAIT => rfl
  case I2 => simp [expectedButton, hsv] at hexp
  case L3_WAIT => rfl
  case REWARD => simp [expectedButton, hsv] at hexp
  case SHAPING_WAIT => rfl
  case PAUSED => simp [expectedButton, hsv] at hexp
  case FINISHED => simp [expectedButton, hsv] at hexp

lemma session_started_of_expectedButton (h : Inv m) (e : ℕ)
    (hexp : expectedButton m = some e) : m.session_started = true := by
  cases hsb : m.session_started
  · have hiti := h.2.2 hsb
    rw [show expectedButton m = none from by
      unfold expectedButton
      rw [hiti]] at hexp
    exact Option.noConfusion hexp
  · rfl

lemma inv_advanceToNextStage (h : Inv m) (hst : m.session_started = true) :
    Inv (advanceToNextStage m now draw) := by
  obtain ⟨h1, h2, h3⟩ := h
  unfold advanceToNextStage
  rcases hsv : m.state
  case ITI => exact ⟨h1, h2, h3⟩
  case I1 => exact ⟨h1, h2, h3⟩
  case I2 => exact ⟨h1, h2, h3⟩
  case REWARD => exact ⟨h1, h2, h3⟩
  case PAUSED => exact ⟨h1, h2, h3⟩
  case FINISHED => exact ⟨h1, h2, h3⟩
  case L1_WAIT =>
    refine ⟨?_, ?_, ?_⟩
    · rw [enterState_stats, enterState_trial_results]
      exact h1
    · rw [enterState_trial_results, enterState_trial_index, enterState_state]
      rw [hsv] at h2
      simp [inProgressState] at h2 ⊢
      omega
    · intro hns
      rw [enterState_session_started] at hns
      simp [hst] at hns
  case L2_WAIT =>
    refine ⟨?_, ?_, ?_⟩
    · rw [enterState_stats, enterState_trial_results]
      exact h1
    · rw [enterState_trial_results, enterState_trial_index, enterState_state]
      rw [hsv] at h2
      simp [inProgressState] at h2 ⊢
      omega
    · intro hns
      rw [enterState_session_started] at hns
      simp [hst] at hns
  case L3_WAIT =>
    refine ⟨?_, ?_, ?_⟩
    · rw [enterState_stats, enterState_trial_results]
      exact h1
    · rw [enterState_trial_results, enterState_trial_index, enterState_state]
      rw [hsv] at h2
      simp [inProgressState] at h2 ⊢
      omega
    · intro hns
      rw [enterState_session_started] at hns
      simp [hst] at hns
  case SHAPING_WAIT =>
    refine ⟨?_, ?_, ?_⟩
    · rw [enterState_stats, enterState_trial_results]
      exact h1
    · rw [enterState_trial_results, enterState_trial_index, enterState_state]
      rw [hsv] at h2
      simp [inProgressState] at h2 ⊢
      omega
    · intro hns
      rw [enterState_session_started] at hns
      simp [hst] at hns

lemma inv_adjustCurrentWaitTime (h : Inv m) (delta : ℚ) :
    Inv (adjustCurrentWaitTime m delta) := by
  unfold adjustCurrentWaitTime
  cases hsv : m.state
  case ITI => exact h
  case I1 => exact h
  case I2 => exact h
  case REWARD => exact h
  case PAUSED => exact h
  case FINISHED => exact h
  case L1_WAIT => exact inv_of_frame m _ h rfl rfl rfl hsv.symm rfl
  case L2_WAIT => exact inv_of_frame m _ h rfl rfl rfl hsv.symm rfl
  case L3_WAIT => exact inv_of_frame m _ h rfl rfl rfl hsv.symm rfl
  case SHAPING_WAIT =>
    dsimp only
    split_ifs <;> exact inv_of_frame m _ h rfl rfl rfl hsv.symm rfl

lemma inv_handleKeydown (h : Inv m) (k : ℕ) (ts : ℚ) :
    Inv (handleKeydown m k ts now draw) := by
  by_cases hkey : k ∈ taskKeys m.config
  · unfold handleKeydown
    rw [if_pos hkey]
    dsimp only
    by_cases hvalid : m.state = TaskState.ITI ∨ m.state = TaskState.I1 ∨
      m.state = TaskState.I2 ∨ m.state = TaskState.REWARD
    · rw [if_pos hvalid]
      by_cases hiti : m.state = TaskState.ITI
      · rw [if_pos hiti]
        try dsimp only
        split_ifs <;> exact inv_of_frame m _ h rfl rfl rfl rfl rfl
      · rw [if_neg hiti]
        refine inv_endTrial _ now draw _ ?_ ?_ (by decide)
        · exact inv_of_frame m _ h rfl rfl rfl rfl rfl
        · show inProgressState m.state = 1
          rcases hvalid with hv | hv | hv | hv
          · exact absurd hv hiti
          · rw [hv]
            rfl
          · rw [hv]
            rfl
          · rw [hv]
            rfl
    · rw [if_neg hvalid]
      cases hexp : expectedButton { m with pressed_keys := m.pressed_keys.insert k } with
      | none => exact inv_of_frame m _ h rfl rfl rfl rfl rfl
      | some e =>
        dsimp only
        split_ifs with hb hcp
        · refine inv_endTrial _ now draw _ ?_ ?_ (by decide)
          · exact inv_of_frame m _ h rfl rfl rfl rfl rfl
          · exact inProgress_of_expectedButton _ e hexp
        · exact inv_of_frame m _ h rfl rfl rfl rfl rfl
        · exact inv_of_frame m _ h rfl rfl rfl rfl rfl
  · unfold handleKeydown
    rw [if_neg hkey]
    exact h

lemma inv_handleKeyup (h : Inv m) (k : ℕ) (ts : ℚ) :
    Inv (handleKeyup m k ts now draw) := by
  by_cases hkey : k ∈ taskKeys m.config
  · unfold handleKeyup
    rw [if_pos hkey]
    dsimp only
    cases hexp : expectedButton { m with pressed_keys := m.pressed_keys.erase k } with
    | none =>
      cases hcp : m.current_press_time <;>
        exact inv_of_frame m _ h rfl rfl rfl rfl rfl
    | some e =>
      cases hcp : m.current_press_time with
      | none => exact inv_of_frame m _ h rfl rfl rfl rfl rfl
      | some p =>
        dsimp only
        split_ifs with hb hts
        · refine inv_advanceToNextStage _ now draw ?_ ?_
          · exact inv_of_frame m _ h rfl rfl rfl rfl rfl
          · exact session_started_of_expectedButton m h e hexp
        · refine inv_endTrial _ now draw _ ?_ ?_ (by decide)
          · exact inv_of_frame m _ h rfl rfl rfl rfl rfl
          · exact inProgress_of_expectedButton _ e hexp
        · exact inv_of_frame m _ h rfl rfl rfl rfl rfl
  · unfold handleKeyup
    rw [if_neg hkey]
    exact h

lemma inv_update (h : Inv m) : Inv (update m now draw) := by
  unfold update
  by_cases hguard : (m.paused = true ∨ m.finished = true ∨ m.session_started = false)
  · rw [if_pos hguard]
    exact h
  · rw [if_neg hguard]
    have hst : m.session_started = true := by
      cases hsb : m.session_started
      · exact absurd (Or.inr (Or.inr hsb)) hguard
      · rfl
    cases hsv : m.state
    · dsimp only
      split_ifs with h1 h2 h3
      · exact h
      · refine ⟨?_, ?_, ?_⟩
        · rw [enterState_stats, enterState_trial_results]
          exact h.1
        · rw [enterState_trial_results, enterState_trial_index, enterState_state]
          have h2' := h.2.1
          rw [hsv] at h2'
          simpa [inProgressState] using h2'
        · intro hns
          rw [enterState_session_started] at hns
          simp [hst] at hns
      · refine inv_startNewTrial _ now draw h ?_
        rw [hsv]
        rfl
      · exact h
    · dsimp only
      cases hcp : m.current_press_time with
      | some p =>
        dsimp only
        split_ifs with hh
        · refine inv_endTrial _ now draw _ ?_ ?_ (by decide)
          · exact inv_of_frame m _ h (holdFailLedOff_stats m now)
              (holdFailLedOff_trial_results m now) (holdFailLedOff_trial_index m now)
              (holdFailLedOff_state m now) (holdFailLedOff_session_started m now)
          · rw [holdFailLedOff_state m now, hsv]
            rfl
        · exact h
      | none =>
        dsimp only
        split_ifs with hh
        · refine inv_endTrial _ now draw _ h ?_ (by decide)
          rw [hsv]
          rfl
        · exact h
    · dsimp only
      split_ifs with h1
      · refine ⟨?_, ?_, ?_⟩
        · rw [enterState_stats, enterState_trial_results]
          exact h.1
        · rw [enterState_trial_results, enterState_trial_index, enterState_state]
          have h2' := h.2.1
          rw [hsv] at h2'
          simpa [inProgressState] using h2'
        · intro hns
          rw [enterState_session_started] at hns
          simp [hst] at hns
      · exact h
    · dsimp only
      cases hcp : m.current_press_time with
      | some p =>
        dsimp only
        split_ifs with hh
        · refine inv_endTrial _ now draw _ ?_ ?_ (by decide)
          · exact inv_of_frame m _ h (holdFailLedOff_stats m now)
              (holdFailLedOff_trial_results m now) (holdFailLedOff_trial_index m now)
              (holdFailLedOff_state m now) (holdFailLedOff_session_started m now)
          · rw [holdFailLedOff_state m now, hsv]
            rfl
        · exact h
      | none =>
        dsimp only
        split_ifs with hh
        · refine inv_endTrial _ now draw _ h ?_ (by decide)
          rw [hsv]
          rfl
        · exact h
    · dsimp only
      split_ifs with h1
      · refine ⟨?_, ?_, ?_⟩
        · rw [enterState_stats, enterState_trial_results]
          exact h.1
        · rw [enterState_trial_results, enterState_trial_index, enterState_state]
          have h2' := h.2.1
          rw [hsv] at h2'
          simpa [inProgressState] using h2'
        · intro hns
          rw [enterState_session_started] at hns
          simp [hst] at hns
      · exact h
    · dsimp only
      cases hcp : m.current_press_time with
      | some p =>
        dsimp only
        split_ifs with hh
        · refine inv_endTrial _ now draw _ ?_ ?_ (by decide)
          · exact inv_of_frame m _ h (holdFailLedOff_stats m now)
              (holdFailLedOff_trial_results m now) (holdFailLedOff_trial_index m now)
              (holdFailLedOff_state m now) (holdFailLedOff_session_started m now)
          · rw [holdFailLedOff_state m now, hsv]
            rfl
        · exact h
      | none =>
        dsimp only
        split_ifs with hh
        · refine inv_endTrial _ now draw _ h ?_ (by decide)
          rw [hsv]
          rfl
        · exact h
    · dsimp only
      split_ifs with h1
      · refine inv_endTrial _ now draw _ ?_ ?_ (by decide)
        · exact inv_of_frame m _ h rfl rfl rfl hsv.symm rfl
        · rfl
      · exact h
    · dsimp only
      cases hcp : m.current_press_time with
      | some p =>
        dsimp only
        split_ifs with hh
        · refine inv_endTrial _ now draw _ ?_ ?_ (by decide)
          · exact inv_of_frame m _ h (holdFailLedOff_stats m now)
              (holdFailLedOff_trial_results m now) (holdFailLedOff_trial_index m now)
              (holdFailLedOff_state m now) (holdFailLedOff_session_started m now)
          · rw [holdFailLedOff_state m now, hsv]
            rfl
        · exact h
      | none =>
        dsimp only
        split_ifs with hh
        · refine inv_endTrial _ now draw _ h ?_ (by decide)
          rw [hsv]
          rfl
        · exact h
    · exact h
    · exact h

lemma inv_processKeyEvent (h : Inv m) (down : Bool) (key : ℕ) (ts : ℚ) :
    Inv (processKeyEvent m down key ts now draw) := by
  unfold processKeyEvent
  split_ifs
  · exact inv_startSession _ now draw h
  · unfold togglePause
    split_ifs
    · exact inv_of_frame m _ h rfl rfl rfl rfl rfl
    · exact h
  · exact inv_resetSession _ now draw
  · unfold toggleMode
    dsimp only
    split_ifs
    · exact inv_resetSession _ now draw
    · exact inv_resetSession _ now draw
    · exact inv_of_frame m _ h rfl rfl rfl rfl rfl
    · exact inv_of_frame m _ h rfl rfl rfl rfl rfl
  · exact inv_adjustCurrentWaitTime m h _
  · exact inv_adjustCurrentWaitTime m h _
  · exact inv_of_frame m _ h rfl rfl rfl rfl rfl
  · exact inv_of_frame m _ h rfl rfl rfl rfl rfl
  · exact h
  · dsimp only
    refine inv_handleKeydown _ now draw ?_ key ts
    exact inv_of_frame m _ h rfl rfl rfl rfl rfl
  · dsimp only
    refine inv_handleKeyup _ now draw ?_ key ts
    exact inv_of_frame m _ h rfl rfl rfl rfl rfl

end FrameLemmas

lemma inv_init (c : Config) (t : ℚ) : Inv (initMachine c t) :=
  ⟨rfl, rfl, fun _ => rfl⟩

lemma inv_reachable (m : Machine) (h : Reachable m) : Inv m := by
  induction h with
  | init c t => exact inv_init c t
  | key m2 down key ts t d _ ih => exact inv_processKeyEvent m2 t d ih down key ts
  | tick m2 t d _ ih => exact inv_update m2 t d ih
  | setConfig m2 c _ ih => exact inv_of_frame m2 _ ih rfl rfl rfl rfl rfl

lemma adaptLowerWaits_eq_iff (c : Config) :
    adaptLowerWaits c = c ↔
      ((adaptLowerWaits c).wait_L1 = c.wait_L1 ∧ (adaptLowerWaits c).wait_L2 = c.wait_L2 ∧
       (adaptLowerWaits c).wait_L3 = c.wait_L3) := by
  constructor
  · intro h
    exact ⟨congrArg Config.wait_L1 h, congrArg Config.wait_L2 h, congrArg Config.wait_L3 h⟩
  · rintro ⟨h1, h2, h3⟩
    unfold adaptLowerWaits at h1 h2 h3 ⊢
    dsimp only at h1 h2 h3
    rw [h1, h2, h3]

lemma adaptRaiseWaits_eq_iff (c : Config) :
    adaptRaiseWaits c = c ↔
      ((adaptRaiseWaits c).wait_L1 = c.wait_L1 ∧ (adaptRaiseWaits c).wait_L2 = c.wait_L2 ∧
       (adaptRaiseWaits c).wait_L3 = c.wait_L3) := by
  constructor
  · intro h
    exact ⟨congrArg Config.wait_L1 h, congrArg Config.wait_L2 h, congrArg Config.wait_L3 h⟩
  · rintro ⟨h1, h2, h3⟩
    unfold adaptRaiseWaits at h1 h2 h3 ⊢
    dsimp only at h1 h2 h3
    rw [h1, h2, h3]

/-- Claim C1: on any update tick of a running machine in a wait state with a
recorded press, once `now - press_time` has reached the release window
(boundary inclusive) the trial ends immediately as HoldTooLong and the stage
indicators are off — no hypothesis relates `now` to the nominal wait
duration, so this fires even when the wait period is unexpired; a matching
release event arriving after the trial already failed leaves the outcome
HoldTooLong and the state in the ITI. -/
theorem C1_hold_timeout_immediate (m : Machine) (now draw p : ℚ)
    (hpause : m.paused = false) (hfin : m.finished = false)
    (hst : m.session_started = true)
    (hwait : m.state = TaskState.L1_WAIT ∨ m.state = TaskState.L2_WAIT ∨
      m.state = TaskState.L3_WAIT ∨ m.state = TaskState.SHAPING_WAIT)
    (hp : m.current_press_time = some p)
    (hhold : m.config.release_window ≤ now - p) :
    (update m now draw).state = TaskState.ITI ∧
    (update m now draw).trial_result_code = some RESULT_HOLD_TOO_LONG ∧
    (update m now draw).trial_results = m.trial_results ++ [RESULT_HOLD_TOO_LONG] ∧
    (update m now draw).stats = m.stats.incr RESULT_HOLD_TOO_LONG ∧
    (update m now draw).led_states 1 = false ∧
    (update m now draw).led_states 2 = false ∧
    (update m now draw).led_states 3 = false ∧
    ∀ k2 ts2 n2 d2,
      (handleKeyup (update m now draw) k2 ts2 n2 d2).trial_result_code =
        some RESULT_HOLD_TOO_LONG ∧
      (handleKeyup (update m now draw) k2 ts2 n2 d2).state = TaskState.ITI := by
  obtain ⟨m1, hu, hres, hstats⟩ :=
    update_wait_hold_ex m now draw p hpause hfin hst hwait hp hhold
  rw [hu]
  refine ⟨rfl, rfl, ?_, ?_, ?_, ?_, ?_, ?_⟩
  · rw [endTrial_trial_results m1 now draw RESULT_HOLD_TOO_LONG, hres]
  · rw [endTrial_stats m1 now draw RESULT_HOLD_TOO_LONG, hstats]
  · rw [endTrial_led_states m1 now draw RESULT_HOLD_TOO_LONG]
    exact allLedsOff_one _
  · rw [endTrial_led_states m1 now draw RESULT_HOLD_TOO_LONG]
    exact allLedsOff_two _
  · rw [endTrial_led_states m1 now draw RESULT_HOLD_TOO_LONG]
    exact allLedsOff_three _
  · intro k2 ts2 n2 d2
    have h := handleKeyup_in_iti (endTrial m1 RESULT_HOLD_TOO_LONG now draw) n2 d2 k2 ts2 rfl
    exact ⟨h.1.trans rfl, h.2.trans rfl⟩

/-- Witness for C1: machine in `L1_WAIT` (wait 3, release window 1, state
entered at 0) with a press recorded at 1; the tick at time 2 — before the
wait period has elapsed — fails the trial as HoldTooLong. -/
theorem C1_witness :
    (update mWaitPress 2 0).state = TaskState.ITI ∧
    (update mWaitPress 2 0).trial_result_code = some RESULT_HOLD_TOO_LONG ∧
    (update mWaitPress 2 0).led_states 1 = false :=
  have h := C1_hold_timeout_immediate mWaitPress 2 0 1 rfl rfl rfl (Or.inl rfl) rfl
    (by norm_num [mWaitPress, initMachine, defaultConfig])
  ⟨h.1, h.2.1, h.2.2.2.2.1⟩

/-- Claim C2: a matching release in a wait state with a recorded press
advances to the next stage (Interval_n, or Reward for the last / shaping
step) with no outcome assigned when the release timestamp is at most
`state entry + wait duration + release window` — the boundary is inclusive —
and ends the trial as HoldTooLong when it is strictly later. -/
theorem C2_release_deadline_inclusive (m : Machine) (k e : ℕ) (ts now draw p : ℚ)
    (hkey : k ∈ taskKeys m.config)
    (hp : m.current_press_time = some p)
    (he : expectedButton m = some e)
    (hb : buttonIndex m.config k = e) :
    (ts ≤ m.state_start_time + currentWaitDuration m + m.config.release_window →
      (handleKeyup m k ts now draw).state = nextStage m.state ∧
      (handleKeyup m k ts now draw).trial_result_code = m.trial_result_code ∧
      (handleKeyup m k ts now draw).trial_results = m.trial_results ∧
      (handleKeyup m k ts now draw).stats = m.stats) ∧
    (m.state_start_time + currentWaitDuration m + m.config.release_window < ts →
      (handleKeyup m k ts now draw).state = TaskState.ITI ∧
      (handleKeyup m k ts now draw).trial_result_code = some RESULT_HOLD_TOO_LONG ∧
      (handleKeyup m k ts now draw).trial_results =
        m.trial_results ++ [RESULT_HOLD_TOO_LONG]) := by
  rw [handleKeyup_matched m now draw k ts p e hkey hp he hb]
  constructor
  · intro hts
    rw [if_pos hts]
    rcases hsv : m.state
    case ITI => simp [expectedButton, hsv] at he
    case L1_WAIT => exact ⟨rfl, rfl, rfl, rfl⟩
    case I1 => simp [expectedButton, hsv] at he
    case L2_WAIT => exact ⟨rfl, rfl, rfl, rfl⟩
    case I2 => simp [expectedButton, hsv] at he
    case L3_WAIT => exact ⟨rfl, rfl, rfl, rfl⟩
    case REWARD => simp [expectedButton, hsv] at he
    case SHAPING_WAIT => exact ⟨rfl, rfl, rfl, rfl⟩
    case PAUSED => simp [expectedButton, hsv] at he
    case FINISHED => simp [expectedButton, hsv] at he
  · intro hts
    rw [if_neg (not_le.mpr hts)]
    exact ⟨rfl, rfl, rfl⟩

/-- Witness for C2: in `L1_WAIT` (entered at 0, wait 3, release window 1) a
release of the matching key exactly at the deadline `t = 4` is accepted and
advances to `I1`. -/
theorem C2_witness :
    (handleKeyup mWaitPress 0 4 4 0).state = nextStage mWaitPress.state ∧
    (handleKeyup mWaitPress 0 4 4 0).trial_result_code = mWaitPress.trial_result_code ∧
    (handleKeyup mWaitPress 0 4 4 0).trial_results = mWaitPress.trial_results ∧
    (handleKeyup mWaitPress 0 4 4 0).stats = mWaitPress.stats :=
  (C2_release_deadline_inclusive mWaitPress 0 1 4 4 0 1 (by decide) rfl rfl rfl).1
    (by norm_num [mWaitPress, initMachine, defaultConfig, currentWaitDuration])

/-- Claim C10: `toggle_pause` (on a started session) mutates only the paused
flag — state-entry instant, recorded press time and drawn ITI duration are
untouched and not rebased on resume; no timeout logic runs while paused, and
an ITI deadline that passed during the pause fires on the first update tick
after resuming (here: that tick starts the next trial). -/
theorem C10_toggle_pause_only_pauses (m : Machine) (now draw : ℚ)
    (hst : m.session_started = true) :
    togglePause m = { m with paused := !m.paused } ∧
    (m.paused = true → update m now draw = m) ∧
    (m.paused = true → m.finished = false → m.state = TaskState.ITI →
      m.iti_duration ≤ now - m.state_start_time →
      anyTaskKeyPressed m = false →
      (m.trial_index : ℤ) < m.config.max_trials →
      (update (togglePause m) now draw).trial_index = m.trial_index + 1) := by
  have htp : togglePause m = { m with paused := !m.paused } := by
    unfold togglePause
    rw [if_pos hst]
  refine ⟨htp, fun hp => update_of_paused m now draw hp, ?_⟩
  intro hp hfin hstate hel hkeys hcap
  rw [htp, hp]
  exact update_iti_starts_trial { m with paused := false } now draw rfl hfin hst
    hstate hel hkeys hcap

/-- Witness for C10: a paused machine in the ITI whose deadline has passed
starts the next trial on the first tick after resuming. -/
theorem C10_witness :
    (update (togglePause mPausedIti) 2 0).trial_index = mPausedIti.trial_index + 1 :=
  (C10_toggle_pause_only_pauses mPausedIti 2 0 rfl).2.2 rfl rfl rfl
    (by norm_num [mPausedIti, initMachine]) rfl
    (by norm_num [mPausedIti, initMachine, defaultConfig])

/-- Claim C5: a task-key press during the ITI increments the premature-press
tally exactly once per ITI period (the latch blocks further increments), the
ITI timer is not reset and no trial ends (state, outcome, statistics, history
and trial counter are unchanged); and while any task key is held, an update
tick in the ITI does nothing at all — in particular the next trial does not
start even after the ITI duration has elapsed. -/
theorem C5_iti_press_latch (m : Machine) (k : ℕ) (ts now draw now2 draw2 : ℚ)
    (hstate : m.state = TaskState.ITI) (hkey : k ∈ taskKeys m.config) :
    ((handleKeydown m k ts now draw).state = TaskState.ITI ∧
     (handleKeydown m k ts now draw).state_start_time = m.state_start_time ∧
     (handleKeydown m k ts now draw).iti_duration = m.iti_duration ∧
     (handleKeydown m k ts now draw).trial_result_code = m.trial_result_code ∧
     (handleKeydown m k ts now draw).trial_results = m.trial_results ∧
     (handleKeydown m k ts now draw).stats = m.stats ∧
     (handleKeydown m k ts now draw).trial_index = m.trial_index ∧
     (handleKeydown m k ts now draw).iti_errors =
       (if m.iti_error_recorded then m.iti_errors else m.iti_errors + 1) ∧
     (handleKeydown m k ts now draw).iti_error_recorded = true) ∧
    (∀ k2 ts2, k2 ∈ taskKeys m.config →
      (handleKeydown (handleKeydown m k ts now draw) k2 ts2 now2 draw2).iti_errors =
        (handleKeydown m k ts now draw).iti_errors) ∧
    (anyTaskKeyPressed m = true → update m now2 draw2 = m) := by
  cases hrec : m.iti_error_recorded
  · have hd := handleKeydown_iti_eq_of_not_rec m now draw k ts hstate hkey hrec
    refine ⟨?_, ?_, fun hp => update_iti_held m now2 draw2 hstate hp⟩
    · rw [hd]
      exact ⟨hstate, rfl, rfl, rfl, rfl, rfl, rfl, rfl, rfl⟩
    · intro k2 ts2 hk2
      rw [handleKeydown_iti_eq_of_rec (handleKeydown m k ts now draw) now2 draw2 k2 ts2
        (by rw [hd]; exact hstate) (by rw [hd]; exact hk2) (by rw [hd])]
  · have hd := handleKeydown_iti_eq_of_rec m now draw k ts hstate hkey hrec
    refine ⟨?_, ?_, fun hp => update_iti_held m now2 draw2 hstate hp⟩
    · rw [hd]
      exact ⟨hstate, rfl, rfl, rfl, rfl, rfl, rfl, rfl, hrec⟩
    · intro k2 ts2 hk2
      rw [handleKeydown_iti_eq_of_rec (handleKeydown m k ts now draw) now2 draw2 k2 ts2
        (by rw [hd]; exact hstate) (by rw [hd]; exact hk2) (by rw [hd]; exact hrec)]

/-- Witness for C5: key 0 pressed in the ITI of a running machine holding
key 0 (latch initially clear). -/
theorem C5_witness :
    ((handleKeydown mItiHeld 0 1 1 0).state = TaskState.ITI ∧
     (handleKeydown mItiHeld 0 1 1 0).state_start_time = mItiHeld.state_start_time ∧
     (handleKeydown mItiHeld 0 1 1 0).iti_duration = mItiHeld.iti_duration ∧
     (handleKeydown mItiHeld 0 1 1 0).trial_result_code = mItiHeld.trial_result_code ∧
     (handleKeydown mItiHeld 0 1 1 0).trial_results = mItiHeld.trial_results ∧
     (handleKeydown mItiHeld 0 1 1 0).stats = mItiHeld.stats ∧
     (handleKeydown mItiHeld 0 1 1 0).trial_index = mItiHeld.trial_index ∧
     (handleKeydown mItiHeld 0 1 1 0).iti_errors =
       (if mItiHeld.iti_error_recorded then mItiHeld.iti_errors
        else mItiHeld.iti_errors + 1) ∧
     (handleKeydown mItiHeld 0 1 1 0).iti_error_recorded = true) ∧
    (∀ k2 ts2, k2 ∈ taskKeys mItiHeld.config →
      (handleKeydown (handleKeydown mItiHeld 0 1 1 0) k2 ts2 2 0).iti_errors =
        (handleKeydown mItiHeld 0 1 1 0).iti_errors) ∧
    (anyTaskKeyPressed mItiHeld = true → update mItiHeld 2 0 = mItiHeld) :=
  C5_iti_press_latch mItiHeld 0 1 1 0 2 0 rfl (by decide)

/-- Claim C8: `start_session()` is idempotent — the first call sets the
session start epoch and begins trial 1, and a second call (at any later
instant) changes nothing: the machine after two calls equals the machine
after one. -/
theorem C8_start_session_idempotent (m : Machine) (t1 d1 t2 d2 : ℚ) :
    startSession (startSession m t1 d1) t2 d2 = startSession m t1 d1 := by
  have key : ∀ m' : Machine, m'.session_started = true → startSession m' t2 d2 = m' := by
    intro m' h
    unfold startSession
    rw [h]
    simp
  by_cases h : m.session_started = true
  · have h1 : startSession m t1 d1 = m := by
      unfold startSession
      rw [h]
      simp
    rw [h1]
    exact key m h
  · apply key
    unfold startSession
    rw [if_neg h, startNewTrial_session_started]

/-- Claim C9: a release event for which no press has been recorded is ignored
silently — the machine state, the outcome code, the statistics, the outcome
history, the trial counter and the state-entry instant are all unchanged (the
handler only removes the key from the pressed-key set). -/
theorem C9_unmatched_release_ignored (m : Machine) (key : ℕ) (ts now draw : ℚ)
    (h : m.current_press_time = none) :
    (handleKeyup m key ts now draw).state = m.state ∧
    (handleKeyup m key ts now draw).trial_result_code = m.trial_result_code ∧
    (handleKeyup m key ts now draw).stats = m.stats ∧
    (handleKeyup m key ts now draw).trial_results = m.trial_results ∧
    (handleKeyup m key ts now draw).trial_index = m.trial_index ∧
    (handleKeyup m key ts now draw).state_start_time = m.state_start_time := by
  rw [handleKeyup_no_press m now draw key ts h]
  split_ifs <;> exact ⟨rfl, rfl, rfl, rfl, rfl, rfl⟩

/-- Witness for C9 at a concrete machine (fresh machine, no recorded press,
release of key 0 at time 0). -/
theorem C9_witness :
    (handleKeyup (initMachine defaultConfig 0) 0 0 0 0).state =
        (initMachine defaultConfig 0).state ∧
    (handleKeyup (initMachine defaultConfig 0) 0 0 0 0).trial_result_code =
        (initMachine defaultConfig 0).trial_result_code ∧
    (handleKeyup (initMachine defaultConfig 0) 0 0 0 0).stats =
        (initMachine defaultConfig 0).stats ∧
    (handleKeyup (initMachine defaultConfig 0) 0 0 0 0).trial_results =
        (initMachine defaultConfig 0).trial_results ∧
    (handleKeyup (initMachine defaultConfig 0) 0 0 0 0).trial_index =
        (initMachine defaultConfig 0).trial_index ∧
    (handleKeyup (initMachine defaultConfig 0) 0 0 0 0).state_start_time =
        (initMachine defaultConfig 0).state_start_time :=
  C9_unmatched_release_ignored (initMachine defaultConfig 0) 0 0 0 0 rfl

/-- Counterexample to claim C3 as stated: after `reset_session()` the
premature-press count and the per-control premature-press tally are *not*
reset — a machine with `iti_errors = 1` keeps it. -/
theorem C3_counterexample :
    (resetSession mC3 1 0).iti_errors ≠ 0 ∧ (resetSession mC3 1 0).iti_key_counts 0 ≠ 0 := by
  exact ⟨by decide, by decide⟩

/-- Claim C3 (amended): `reset_session()` zeroes the trial counter, the
outcome history, the five statistics counters and the adaptive history,
clears the pause/finished flags, marks the session not-started and re-enters
the ITI — but it leaves the premature-press count and the per-control
premature-press tally untouched. -/
theorem C3_reset_session_state (m : Machine) (now draw : ℚ) :
    (resetSession m now draw).trial_index = 0 ∧
    (resetSession m now draw).trial_results = [] ∧
    (resetSession m now draw).stats = Stats.zero ∧
    (resetSession m now draw).adaptive_adjustments = [] ∧
    (resetSession m now draw).state = TaskState.ITI ∧
    (resetSession m now draw).session_started = false ∧
    (resetSession m now draw).paused = false ∧
    (resetSession m now draw).finished = false ∧
    (resetSession m now draw).iti_errors = m.iti_errors ∧
    (resetSession m now draw).iti_key_counts = m.iti_key_counts :=
  ⟨rfl, rfl, rfl, rfl, rfl, rfl, rfl, rfl, rfl, rfl⟩

/-- Counterexample to claim C4 as stated: a parameter-box edit applies the
entered value with no clamping at all, so entering -3 for a wait duration
makes it negative. -/
theorem C4_counterexample :
    (applyParameterChanges defaultConfig negBoxes).wait_L1 < 0 := by
  norm_num [applyParameterChanges, negBoxes, defaultConfig]

/-- Claim C4 (amended): the hotkey wait-time adjustment clamps the adjusted
wait into [0.1, 10] (so all three waits stay nonnegative); the
release-window decrement hotkey clamps below at 0.1; the increment hotkey
clamps above at 5 and preserves nonnegativity; and the adaptive adjustment
keeps all waits nonnegative whenever the adaptive bounds and step are
nonnegative.  Parameter-box edits, by contrast, are applied verbatim and are
excluded (see the counterexample). -/
theorem C4_clamped_mutations (m : Machine) (delta : ℚ) (c : Config) (now : ℚ)
    (hw1 : 0 ≤ m.config.wait_L1) (hw2 : 0 ≤ m.config.wait_L2)
    (hw3 : 0 ≤ m.config.wait_L3) (hrw : 0 ≤ c.release_window)
    (hmin : 0 ≤ m.config.min_wait) (hmax : 0 ≤ m.config.max_wait)
    (hstep : 0 ≤ m.config.adaptive_step) :
    (0 ≤ (adjustCurrentWaitTime m delta).config.wait_L1 ∧
     0 ≤ (adjustCurrentWaitTime m delta).config.wait_L2 ∧
     0 ≤ (adjustCurrentWaitTime m delta).config.wait_L3) ∧
    1/10 ≤ (releaseWindowDecr c).release_window ∧
    (0 ≤ (releaseWindowIncr c).release_window ∧
     (releaseWindowIncr c).release_window ≤ 5) ∧
    (0 ≤ (applyAdaptiveAdjustments m now).config.wait_L1 ∧
     0 ≤ (applyAdaptiveAdjustments m now).config.wait_L2 ∧
     0 ≤ (applyAdaptiveAdjustments m now).config.wait_L3) := by
  have hclamp : ∀ x : ℚ, (0 : ℚ) ≤ max (1/10) (min 10 x) :=
    fun x => le_trans (by norm_num) (le_max_left _ _)
  have hlow : (0 : ℚ) ≤ m.config.min_wait → ∀ x : ℚ,
      (0 : ℚ) ≤ max m.config.min_wait x :=
    fun h x => le_trans h (le_max_left _ _)
  refine ⟨?_, ?_, ⟨?_, ?_⟩, ?_⟩
  · unfold adjustCurrentWaitTime
    cases hs : m.state
    case ITI => exact ⟨hw1, hw2, hw3⟩
    case L1_WAIT => exact ⟨hclamp _, hw2, hw3⟩
    case I1 => exact ⟨hw1, hw2, hw3⟩
    case L2_WAIT => exact ⟨hw1, hclamp _, hw3⟩
    case I2 => exact ⟨hw1, hw2, hw3⟩
    case L3_WAIT => exact ⟨hw1, hw2, hclamp _⟩
    case REWARD => exact ⟨hw1, hw2, hw3⟩
    case SHAPING_WAIT =>
      dsimp only
      split_ifs
      · exact ⟨hclamp _, hw2, hw3⟩
      · exact ⟨hw1, hclamp _, hw3⟩
      · exact ⟨hw1, hw2, hclamp _⟩
    case PAUSED => exact ⟨hw1, hw2, hw3⟩
    case FINISHED => exact ⟨hw1, hw2, hw3⟩
  · exact le_max_left _ _
  · exact le_min (by norm_num) (by linarith)
  · exact min_le_left _ _
  · unfold applyAdaptiveAdjustments
    dsimp only
    split_ifs
    · exact ⟨hw1, hw2, hw3⟩
    · exact ⟨hlow hmin _, hlow hmin _, hlow hmin _⟩
    · exact ⟨hlow hmin _, hlow hmin _, hlow hmin _⟩
    · exact ⟨le_min hmax (add_nonneg hw1 hstep), le_min hmax (add_nonneg hw2 hstep),
        le_min hmax (add_nonneg hw3 hstep)⟩
    · exact ⟨le_min hmax (add_nonneg hw1 hstep), le_min hmax (add_nonneg hw2 hstep),
        le_min hmax (add_nonneg hw3 hstep)⟩
    · exact ⟨hw1, hw2, hw3⟩

/-- Witness for C4 at the default configuration (all bounds nonnegative). -/
theorem C4_witness :
    (0 ≤ (adjustCurrentWaitTime (initMachine defaultConfig 0) (1/10)).config.wait_L1 ∧
     0 ≤ (adjustCurrentWaitTime (initMachine defaultConfig 0) (1/10)).config.wait_L2 ∧
     0 ≤ (adjustCurrentWaitTime (initMachine defaultConfig 0) (1/10)).config.wait_L3) ∧
    1/10 ≤ (releaseWindowDecr defaultConfig).release_window ∧
    (0 ≤ (releaseWindowIncr defaultConfig).release_window ∧
     (releaseWindowIncr defaultConfig).release_window ≤ 5) ∧
    (0 ≤ (applyAdaptiveAdjustments (initMachine defaultConfig 0) 0).config.wait_L1 ∧
     0 ≤ (applyAdaptiveAdjustments (initMachine defaultConfig 0) 0).config.wait_L2 ∧
     0 ≤ (applyAdaptiveAdjustments (initMachine defaultConfig 0) 0).config.wait_L3) :=
  C4_clamped_mutations (initMachine defaultConfig 0) (1/10) defaultConfig 0
    (by norm_num [initMachine, defaultConfig])
    (by norm_num [initMachine, defaultConfig])
    (by norm_num [initMachine, defaultConfig])
    (by norm_num [defaultConfig])
    (by norm_num [initMachine, defaultConfig])
    (by norm_num [initMachine, defaultConfig])
    (by norm_num [initMachine, defaultConfig])

/-- Claim C6: adaptive adjustment does nothing until at least
`adaptive_window` completed trials exist; with accuracy over the most recent
`adaptive_window` outcomes at or above the high threshold every per-step wait
becomes `max min_wait (wait - step)`, at or below the low threshold every
wait becomes `min max_wait (wait + step)`, strictly between the thresholds
nothing changes; an adjustment event is recorded exactly when some wait
actually changed, so once lowering is a fixed point (e.g. all waits at the
floor) a further high-accuracy pass changes nothing and records nothing. -/
theorem C6_adaptive_adjustment (m : Machine) (now : ℚ) :
    (m.trial_results.length < m.config.adaptive_window →
      applyAdaptiveAdjustments m now = m) ∧
    (m.config.adaptive_window ≤ m.trial_results.length →
      m.config.adaptive_threshold_high ≤ recentAccuracy m →
      ((applyAdaptiveAdjustments m now).config.wait_L1 =
          max m.config.min_wait (m.config.wait_L1 - m.config.adaptive_step) ∧
       (applyAdaptiveAdjustments m now).config.wait_L2 =
          max m.config.min_wait (m.config.wait_L2 - m.config.adaptive_step) ∧
       (applyAdaptiveAdjustments m now).config.wait_L3 =
          max m.config.min_wait (m.config.wait_L3 - m.config.adaptive_step)) ∧
      ((applyAdaptiveAdjustments m now).adaptive_adjustments = m.adaptive_adjustments ↔
        adaptLowerWaits m.config = m.config)) ∧
    (m.config.adaptive_window ≤ m.trial_results.length →
      ¬ m.config.adaptive_threshold_high ≤ recentAccuracy m →
      recentAccuracy m ≤ m.config.adaptive_threshold_low →
      ((applyAdaptiveAdjustments m now).config.wait_L1 =
          min m.config.max_wait (m.config.wait_L1 + m.config.adaptive_step) ∧
       (applyAdaptiveAdjustments m now).config.wait_L2 =
          min m.config.max_wait (m.config.wait_L2 + m.config.adaptive_step) ∧
       (applyAdaptiveAdjustments m now).config.wait_L3 =
          min m.config.max_wait (m.config.wait_L3 + m.config.adaptive_step)) ∧
      ((applyAdaptiveAdjustments m now).adaptive_adjustments = m.adaptive_adjustments ↔
        adaptRaiseWaits m.config = m.config)) ∧
    (m.config.adaptive_window ≤ m.trial_results.length →
      ¬ m.config.adaptive_threshold_high ≤ recentAccuracy m →
      ¬ recentAccuracy m ≤ m.config.adaptive_threshold_low →
      applyAdaptiveAdjustments m now = m) ∧
    (m.config.adaptive_window ≤ m.trial_results.length →
      m.config.adaptive_threshold_high ≤ recentAccuracy m →
      adaptLowerWaits m.config = m.config →
      applyAdaptiveAdjustments m now = m) := by
  unfold applyAdaptiveAdjustments
  dsimp only
  refine ⟨?_, ?_, ?_, ?_, ?_⟩
  · intro hlt
    rw [if_pos hlt]
  · intro hlen hacc
    rw [if_neg (not_lt.mpr hlen), if_pos hacc]
    constructor
    · split_ifs with hch <;> exact ⟨rfl, rfl, rfl⟩
    · split_ifs with hch
      · exact iff_of_true rfl ((adaptLowerWaits_eq_iff m.config).mpr hch)
      · refine iff_of_false ?_ ?_
        · intro hl
          simpa using congrArg List.length hl
        · intro hr
          exact hch ((adaptLowerWaits_eq_iff m.config).mp hr)
  · intro hlen hacc hlow
    rw [if_neg (not_lt.mpr hlen), if_neg hacc, if_pos hlow]
    constructor
    · split_ifs with hch <;> exact ⟨rfl, rfl, rfl⟩
    · split_ifs with hch
      · exact iff_of_true rfl ((adaptRaiseWaits_eq_iff m.config).mpr hch)
      · refine iff_of_false ?_ ?_
        · intro hl
          simpa using congrArg List.length hl
        · intro hr
          exact hch ((adaptRaiseWaits_eq_iff m.config).mp hr)
  · intro hlen hacc hlow
    rw [if_neg (not_lt.mpr hlen), if_neg hacc, if_neg hlow]
  · intro hlen hacc hchg
    rw [if_neg (not_lt.mpr hlen), if_pos hacc,
      if_pos ((adaptLowerWaits_eq_iff m.config).mp hchg)]
    rw [hchg]

/-- Witness for C6: two recorded Correct outcomes with window 2 (accuracy 1,
above the 0.85 threshold) lower every wait by one step. -/
theorem C6_witness :
    ((applyAdaptiveAdjustments mAdaptive 0).config.wait_L1 =
        max mAdaptive.config.min_wait
          (mAdaptive.config.wait_L1 - mAdaptive.config.adaptive_step) ∧
     (applyAdaptiveAdjustments mAdaptive 0).config.wait_L2 =
        max mAdaptive.config.min_wait
          (mAdaptive.config.wait_L2 - mAdaptive.config.adaptive_step) ∧
     (applyAdaptiveAdjustments mAdaptive 0).config.wait_L3 =
        max mAdaptive.config.min_wait
          (mAdaptive.config.wait_L3 - mAdaptive.config.adaptive_step)) ∧
    ((applyAdaptiveAdjustments mAdaptive 0).adaptive_adjustments =
        mAdaptive.adaptive_adjustments ↔
      adaptLowerWaits mAdaptive.config = mAdaptive.config) :=
  (C6_adaptive_adjustment mAdaptive 0).2.1 (by decide)
    (by norm_num [recentAccuracy, recentResults, mAdaptive, cfgAdaptive, defaultConfig,
      initMachine, RESULT_CORRECT])

/-- Claim C7: at every reachable machine state the five per-outcome counters
sum to the number of recorded outcomes, and that sum plus the trial in
progress (0 or 1, read off the current state) equals the trial counter — so
each started trial is assigned exactly one outcome, exactly once. -/
theorem C7_outcome_accounting (m : Machine) (h : Reachable m) :
    Stats.sum m.stats = m.trial_results.length ∧
    Stats.sum m.stats + inProgressState m.state = m.trial_index := by
  obtain ⟨h1, h2, _⟩ := inv_reachable m h
  refine ⟨h1, ?_⟩
  rw [h1]
  exact h2

/-- Witness for C7 at the freshly constructed machine. -/
theorem C7_witness :
    Stats.sum (initMachine defaultConfig 0).stats =
        (initMachine defaultConfig 0).trial_results.length ∧
    Stats.sum (initMachine defaultConfig 0).stats +
        inProgressState (initMachine defaultConfig 0).state =
      (initMachine defaultConfig 0).trial_index :=
  C7_outcome_accounting (initMachine defaultConfig 0) (Reachable.init defaultConfig 0)

end MouseSequenceTask
